import Mathlib

/-!
# Verification of the Kaetram-Open server `Entity` class

Shallow embedding of `server/ts/game/entity/entity.ts`. The mutable class
is modelled as an immutable `Entity` structure; each method becomes a pure
function that returns the updated structure (and, where the method invokes
a callback, a flag reporting the invocation).

Modelling decisions, each tied to a line of the source:

* Coordinates are JS numbers used as integer grid cells; we model them as
  `Int`. `Math.abs` is `|·|` on `Int`.
* `invisibles` is a JS object used as a map from instance string to entity
  (`this.invisibles[entity.instance] = entity`); only its key set is ever
  consulted (`in` checks, `delete`), so we model the key set as a
  duplicate-free `List String`: insertion is a no-op on a present key
  (object key overwrite), `delete` removes the key.
* `invisiblesIds` is a JS array mutated with `push` / `indexOf` + `splice(i,1)`;
  we model it as `List Int`, with append and first-occurrence erasure.
* `specialState` and `customScale` are optional; the source guards them with
  JS truthiness (`if (this.specialState)`, `if (this.customScale)`), which we
  model as nonempty-string / nonzero tests on `Option` values.
* `setPositionCallback` holds at most one registered callback; only its
  presence matters to the claims, so it is a `Bool`, and `setPosition`
  additionally returns whether the callback was invoked.
* `canAggro` throws (`throw new Error('Method not implemented.')`); fallible
  code is modelled with `Except`.
-/

/-- The `Entity` class fields (server/ts/game/entity/entity.ts). `instance`
is a Lean keyword, so the field is named `inst`. -/
structure Entity where
  id : Int
  type : String
  inst : String
  x : Int
  y : Int
  oldX : Int
  oldY : Int
  specialState : Option String
  customScale : Option Int
  invisibles : List String
  invisiblesIds : List Int
  setPositionCallback : Bool
  dead : Bool
deriving DecidableEq

/-- The constructor: `oldX/oldY` start at the spawn position, the hide lists
start empty, no callback is registered. -/
def entityNew (id : Int) (type inst : String) (x y : Int) : Entity :=
  { id := id, type := type, inst := inst, x := x, y := y
    oldX := x, oldY := y
    specialState := none, customScale := none
    invisibles := [], invisiblesIds := []
    setPositionCallback := false, dead := false }

/-- `getDistance(entity)`: Chebyshev distance, written as in the source with
the ternary `x > y ? x : y`. -/
def getDistance (e entity : Entity) : Int :=
  let x := |e.x - entity.x|
  let y := |e.y - entity.y|
  if x > y then x else y

/-- `getCoordDistance(toX, toY)`: same formula on raw coordinates. -/
def getCoordDistance (e : Entity) (toX toY : Int) : Int :=
  let x := |e.x - toX|
  let y := |e.y - toY|
  if x > y then x else y

/-- `setPosition(x, y)`: updates the coordinates and invokes the registered
callback if any. The second component reports whether the callback ran. -/
def setPosition (e : Entity) (x y : Int) : Entity × Bool :=
  ({ e with x := x, y := y }, e.setPositionCallback)

/-- `updatePosition()`: commits the move by copying `(x, y)` into
`(oldX, oldY)`. -/
def updatePosition (e : Entity) : Entity :=
  { e with oldX := e.x, oldY := e.y }

/-- `onSetPosition(callback)`: registers the (single) callback. -/
def onSetPosition (e : Entity) : Entity :=
  { e with setPositionCallback := true }

/-- `isNear(entity, distance)`: both axis deltas within `distance`. -/
def isNear (e entity : Entity) (distance : Int) : Bool :=
  let dx := |e.x - entity.x|
  let dy := |e.y - entity.y|
  decide (dx ≤ distance) && decide (dy ≤ distance)

/-- `isSurrounding(entity)`: Chebyshev distance strictly below 2. (The JS
truthiness guard `entity &&` only rejects a null argument, which has no
counterpart for a structure value.) -/
def isSurrounding (e entity : Entity) : Bool :=
  decide (getDistance e entity < 2)

/-- `isNonDiagonal(entity)`: surrounding, and not differing on both axes. -/
def isNonDiagonal (e entity : Entity) : Bool :=
  isSurrounding e entity &&
    !(decide (entity.x ≠ e.x) && decide (entity.y ≠ e.y))

/-- `isMob()` -/
def isMob (e : Entity) : Bool := e.type == "mob"

/-- `isNPC()` -/
def isNPC (e : Entity) : Bool := e.type == "npc"

/-- `isItem()` -/
def isItem (e : Entity) : Bool := e.type == "item"

/-- `isPlayer()` -/
def isPlayer (e : Entity) : Bool := e.type == "player"

/-- `addInvisible(entity)`: stores under the key `entity.instance`; on the
key set, inserting an already-present key is a no-op. -/
def addInvisible (e target : Entity) : Entity :=
  { e with invisibles :=
      if target.inst ∈ e.invisibles then e.invisibles
      else target.inst :: e.invisibles }

/-- `addInvisibleId(entityId)`: `push` appends, duplicates and all. -/
def addInvisibleId (e : Entity) (entityId : Int) : Entity :=
  { e with invisiblesIds := e.invisiblesIds ++ [entityId] }

/-- `removeInvisible(entity)`: `delete this.invisibles[entity.instance]`
removes the key from the key set. -/
def removeInvisible (e target : Entity) : Entity :=
  { e with invisibles := e.invisibles.filter (fun k => k ≠ target.inst) }

/-- `removeInvisibleId(entityId)`: `indexOf` + `splice(index, 1)` removes the
first occurrence when present, otherwise does nothing. -/
def removeInvisibleId (e : Entity) (entityId : Int) : Entity :=
  { e with invisiblesIds := e.invisiblesIds.erase entityId }

/-- `hasInvisible(entity)`: `entity.instance in this.invisibles`. -/
def hasInvisible (e target : Entity) : Bool :=
  decide (target.inst ∈ e.invisibles)

/-- `hasInvisibleId(entityId)`: `indexOf(entityId) > -1`. -/
def hasInvisibleId (e : Entity) (entityId : Int) : Bool :=
  decide (entityId ∈ e.invisiblesIds)

/-- `hasInvisibleInstance(instance)`: `instance in this.invisibles`. -/
def hasInvisibleInstance (e : Entity) (inst : String) : Bool :=
  decide (inst ∈ e.invisibles)

/-- The broadcast-layer visibility predicate of spec §4.2:
`visibleTo(observer, target) = NOT observer.hasInvisible(target)`. -/
def visibleTo (observer target : Entity) : Bool :=
  !(hasInvisible observer target)

/-- The external label/name lookup modules (`util/mobs`, `util/npcs`,
`util/items`) that `getState` imports; they live outside the shown core, so
they are parameters: six total mappings from the template id. -/
structure Lookups where
  mobString : Int → String
  mobName : Int → String
  npcString : Int → String
  npcName : Int → String
  itemString : Int → String
  itemName : Int → String

/-- The record `getState` builds. The two conditionally-assigned fields are
`Option`s; `none` means the key is absent from the JS object. -/
structure EntityState where
  type : String
  id : String
  string : String
  name : String
  x : Int
  y : Int
  nameColour : Option String
  customScale : Option Int
deriving DecidableEq

/-- JS truthiness of an optional string: absent and `""` are falsy. -/
def strTruthy : Option String → Bool
  | none => false
  | some s => s != ""

/-- JS truthiness of an optional number (modelled on `Int`): absent and `0`
are falsy. -/
def numTruthy : Option Int → Bool
  | none => false
  | some n => n != 0

/-- `getNameColour()`: the `switch` on `specialState`; an unmatched value
falls through and returns `undefined`. -/
def getNameColour (e : Entity) : Option String :=
  match e.specialState with
  | some "boss" => some "#660033"
  | some "miniboss" => some "#cc3300"
  | some "achievementNpc" => some "#669900"
  | some "area" => some "#00aa00"
  | some "questNpc" => some "#6699ff"
  | some "questMob" => some "#0099cc"
  | _ => none

/-- `getState()`: the wire snapshot. `id` carries the instance string; the
`string`/`name` fields come from the mob, npc or item table according to the
entity's type; `nameColour` and `customScale` are assigned only behind the
truthiness guards of the source. -/
def getState (L : Lookups) (e : Entity) : EntityState :=
  let string :=
    if isMob e then L.mobString e.id
    else if isNPC e then L.npcString e.id
    else L.itemString e.id
  let name :=
    if isMob e then L.mobName e.id
    else if isNPC e then L.npcName e.id
    else L.itemName e.id
  { type := e.type, id := e.inst, string := string, name := name
    x := e.x, y := e.y
    nameColour := if strTruthy e.specialState then getNameColour e else none
    customScale := if numTruthy e.customScale then e.customScale else none }

/-- The `player` parameter of `canAggro`; the `Player` subclass is outside
the shown core and `canAggro` never inspects it, so any entity stands in. -/
abbrev Player := Entity

/-- `canAggro(player)`: `throw new Error('Method not implemented.')` on the
base class — modelled as an `Except` that is always an error. -/
def canAggro (e : Entity) (player : Player) : Except String Bool :=
  Except.error "Method not implemented."

/-- A world: the live entities keyed by instance string. Used to state frame
properties of operations that touch a single entity. -/
def World : Type := String → Entity

/-- Hiding in a world: the observer entity (looked up by instance) gets
`addInvisible target`; every other entity is untouched. -/
def hideInWorld (w : World) (observerInst : String) (target : Entity) : World :=
  fun i => if i = observerInst then addInvisible (w i) target else w i

/-! ## Claims -/

/-- C5: for all entities `a, b` and every radius `r ≥ 0`, `isNear a b r` is
true iff the Chebyshev distance `getDistance a b` is at most `r`. -/
theorem isNear_iff_getDistance_le (a b : Entity) (r : Int) (hr : 0 ≤ r) :
    isNear a b r = true ↔ getDistance a b ≤ r := by
  simp only [isNear, getDistance, Bool.and_eq_true, decide_eq_true_eq]
  generalize |a.x - b.x| = dx
  generalize |a.y - b.y| = dy
  split <;> omega

theorem isNear_iff_getDistance_le_witness :
    (0 : Int) ≤ 3 ∧
      (isNear (entityNew 1 "mob" "a" 0 0) (entityNew 2 "mob" "b" 2 1) 3 = true ↔
        getDistance (entityNew 1 "mob" "a" 0 0) (entityNew 2 "mob" "b" 2 1) ≤ 3) :=
  ⟨by decide,
    isNear_iff_getDistance_le (entityNew 1 "mob" "a" 0 0) (entityNew 2 "mob" "b" 2 1) 3
      (by decide)⟩

/-- C6: `isNonDiagonal a b` is true iff `isSurrounding a b` holds and the two
entities agree on an axis; it is true on the same cell and false on the four
diagonal neighbours. -/
theorem isNonDiagonal_iff (a b : Entity) :
    (isNonDiagonal a b = true ↔
      (isSurrounding a b = true ∧ (a.x = b.x ∨ a.y = b.y)))
    ∧ (a.x = b.x ∧ a.y = b.y → isNonDiagonal a b = true)
    ∧ (|a.x - b.x| = 1 ∧ |a.y - b.y| = 1 → isNonDiagonal a b = false) := by
  have hdist : getDistance a b < 2 ↔ |a.x - b.x| < 2 ∧ |a.y - b.y| < 2 := by
    simp only [getDistance]
    generalize |a.x - b.x| = dx
    generalize |a.y - b.y| = dy
    split <;> omega
  have hsur : isSurrounding a b = true ↔
      (-2 < a.x - b.x ∧ a.x - b.x < 2 ∧ -2 < a.y - b.y ∧ a.y - b.y < 2) := by
    rw [isSurrounding, decide_eq_true_eq, hdist, abs_lt, abs_lt]
    tauto
  have hnd : isNonDiagonal a b = true ↔
      (isSurrounding a b = true ∧ (a.x = b.x ∨ a.y = b.y)) := by
    simp only [isNonDiagonal, Bool.and_eq_true, Bool.not_eq_true', Bool.and_eq_false_iff,
      decide_eq_false_iff_not, ne_eq, not_not]
    constructor
    · rintro ⟨h1, h2 | h2⟩ <;> exact ⟨h1, by omega⟩
    · rintro ⟨h1, h2 | h2⟩ <;> exact ⟨h1, by omega⟩
  refine ⟨hnd, ?_, ?_⟩
  · rintro ⟨h1, h2⟩
    exact hnd.mpr ⟨hsur.mpr (by omega), Or.inl h1⟩
  · rintro ⟨h1, h2⟩
    rw [abs_eq (by norm_num)] at h1 h2
    rw [← Bool.not_eq_true, hnd]
    rintro ⟨hs, hxy⟩
    rcases hxy with h | h <;> omega

theorem isNonDiagonal_iff_witness :
    ((entityNew 1 "mob" "a" 4 4).x = (entityNew 2 "mob" "b" 4 4).x ∧
      (entityNew 1 "mob" "a" 4 4).y = (entityNew 2 "mob" "b" 4 4).y) ∧
    isNonDiagonal (entityNew 1 "mob" "a" 4 4) (entityNew 2 "mob" "b" 4 4) = true :=
  ⟨by decide,
    (isNonDiagonal_iff (entityNew 1 "mob" "a" 4 4) (entityNew 2 "mob" "b" 4 4)).2.1
      (by decide)⟩

/-- C7: `setPosition` sets the coordinates, reports the callback exactly when
one is registered, and changes no other field (in particular `oldX`/`oldY`);
only `updatePosition` copies `(x, y)` into `(oldX, oldY)`. -/
theorem setPosition_spec (e : Entity) (x y : Int) :
    (setPosition e x y).1 = { e with x := x, y := y }
    ∧ (setPosition e x y).1.oldX = e.oldX
    ∧ (setPosition e x y).1.oldY = e.oldY
    ∧ (setPosition e x y).1.invisibles = e.invisibles
    ∧ (setPosition e x y).1.invisiblesIds = e.invisiblesIds
    ∧ (setPosition e x y).1.specialState = e.specialState
    ∧ (setPosition e x y).1.customScale = e.customScale
    ∧ (setPosition e x y).1.dead = e.dead
    ∧ (setPosition e x y).2 = e.setPositionCallback
    ∧ (updatePosition e).oldX = e.x
    ∧ (updatePosition e).oldY = e.y
    ∧ (updatePosition e).x = e.x
    ∧ (updatePosition e).y = e.y :=
  ⟨rfl, rfl, rfl, rfl, rfl, rfl, rfl, rfl, rfl, rfl, rfl, rfl, rfl⟩

/-- C4: `canAggro` on the base entity signals the not-implemented error for
every argument and never returns a value. -/
theorem canAggro_always_throws (e : Entity) (p : Player) :
    canAggro e p = Except.error "Method not implemented."
    ∧ ∀ b : Bool, canAggro e p ≠ Except.ok b :=
  ⟨rfl, fun _ h => Except.noConfusion h⟩

/-- C9: hiding `B` from `A` touches only `A`'s entry in the world, so `B`'s
entity — and hence `visibleTo(B, A)` through both `hasInvisible` and
`hasInvisibleId` — is unchanged. -/
theorem hide_asymmetric (w : World) (A B : Entity) (h : B.inst ≠ A.inst) :
    hideInWorld w A.inst B B.inst = w B.inst
    ∧ hasInvisible (hideInWorld w A.inst B B.inst) A
        = hasInvisible (w B.inst) A
    ∧ hasInvisibleId (hideInWorld w A.inst B B.inst) A.id
        = hasInvisibleId (w B.inst) A.id := by
  have hw : hideInWorld w A.inst B B.inst = w B.inst := by
    simp [hideInWorld, h]
  exact ⟨hw, by rw [hw], by rw [hw]⟩

theorem hide_asymmetric_witness :
    (entityNew 2 "player" "b" 0 0).inst ≠ (entityNew 1 "player" "a" 0 0).inst
    ∧ (hideInWorld (fun _ => entityNew 0 "npc" "w" 0 0)
        (entityNew 1 "player" "a" 0 0).inst (entityNew 2 "player" "b" 0 0)
        (entityNew 2 "player" "b" 0 0).inst
        = (fun _ => entityNew 0 "npc" "w" 0 0) (entityNew 2 "player" "b" 0 0).inst
      ∧ hasInvisible
          (hideInWorld (fun _ => entityNew 0 "npc" "w" 0 0)
            (entityNew 1 "player" "a" 0 0).inst (entityNew 2 "player" "b" 0 0)
            (entityNew 2 "player" "b" 0 0).inst)
          (entityNew 1 "player" "a" 0 0)
          = hasInvisible ((fun _ => entityNew 0 "npc" "w" 0 0)
              (entityNew 2 "player" "b" 0 0).inst) (entityNew 1 "player" "a" 0 0)
      ∧ hasInvisibleId
          (hideInWorld (fun _ => entityNew 0 "npc" "w" 0 0)
            (entityNew 1 "player" "a" 0 0).inst (entityNew 2 "player" "b" 0 0)
            (entityNew 2 "player" "b" 0 0).inst)
          (entityNew 1 "player" "a" 0 0).id
          = hasInvisibleId ((fun _ => entityNew 0 "npc" "w" 0 0)
              (entityNew 2 "player" "b" 0 0).inst) (entityNew 1 "player" "a" 0 0).id) :=
  ⟨by decide,
    hide_asymmetric (fun _ => entityNew 0 "npc" "w" 0 0)
      (entityNew 1 "player" "a" 0 0) (entityNew 2 "player" "b" 0 0) (by decide)⟩

/-- C1 (counterexample): `hideId` is not idempotent. Calling it twice with id
7 differs from calling it once, and after a single `unhideId` the id is still
hidden. -/
theorem hideId_not_idempotent :
    addInvisibleId (addInvisibleId (entityNew 1 "player" "p" 0 0) 7) 7
      ≠ addInvisibleId (entityNew 1 "player" "p" 0 0) 7
    ∧ hasInvisibleId
        (removeInvisibleId
          (addInvisibleId (addInvisibleId (entityNew 1 "player" "p" 0 0) 7) 7) 7) 7
        = true := by
  decide

/-- C1 (amended): `hideId` appends `targetId` on every call, so a second call
changes the state (adds a duplicate) and a single subsequent `unhideId`
removes only one occurrence, leaving `isHidden` true. -/
theorem hideId_appends_duplicate (e : Entity) (n : Int) :
    addInvisibleId (addInvisibleId e n) n ≠ addInvisibleId e n
    ∧ hasInvisibleId
        (removeInvisibleId (addInvisibleId (addInvisibleId e n) n) n) n = true := by
  constructor
  · intro hEq
    have hl := congrArg (fun t => t.invisiblesIds.length) hEq
    simp only [addInvisibleId, List.length_append, List.length_cons,
      List.length_nil] at hl
    omega
  · have hmem : n ∈ ((e.invisiblesIds ++ [n]) ++ [n]).erase n := by
      have hc : ((e.invisiblesIds ++ [n]) ++ [n]).count n
          = e.invisiblesIds.count n + 2 := by
        simp [List.count_append]
      have hce := List.count_erase_self n ((e.invisiblesIds ++ [n]) ++ [n])
      have hpos : 0 < (((e.invisiblesIds ++ [n]) ++ [n]).erase n).count n := by
        omega
      exact List.count_pos_iff.mp hpos
    show decide (n ∈ ((e.invisiblesIds ++ [n]) ++ [n]).erase n) = true
    simpa using hmem

/-- C10: starting from a state not hiding id `n`, two `hideId` calls followed
by one `unhideId` still report the id hidden; the second `unhideId` clears
it — duplicate hides must be matched one-for-one by unhides. -/
theorem hideId_requires_matching_unhides (e : Entity) (n : Int)
    (h : n ∉ e.invisiblesIds) :
    hasInvisibleId
        (removeInvisibleId (addInvisibleId (addInvisibleId e n) n) n) n = true
    ∧ hasInvisibleId
        (removeInvisibleId
          (removeInvisibleId (addInvisibleId (addInvisibleId e n) n) n) n) n
        = false := by
  have h1 : ((e.invisiblesIds ++ [n]) ++ [n]).erase n = e.invisiblesIds ++ [n] := by
    rw [List.append_assoc, List.erase_append_right _ (by simpa using h)]
    simp
  have h2 : (e.invisiblesIds ++ [n]).erase n = e.invisiblesIds := by
    rw [List.erase_append_right _ (by simpa using h)]
    simp
  constructor
  · show decide (n ∈ ((e.invisiblesIds ++ [n]) ++ [n]).erase n) = true
    rw [h1]
    simp
  · show decide (n ∈ (((e.invisiblesIds ++ [n]) ++ [n]).erase n).erase n) = false
    rw [h1, h2]
    simpa using h

theorem hideId_requires_matching_unhides_witness :
    (7 : Int) ∉ (entityNew 1 "player" "p" 0 0).invisiblesIds
    ∧ (hasInvisibleId
          (removeInvisibleId
            (addInvisibleId (addInvisibleId (entityNew 1 "player" "p" 0 0) 7) 7) 7) 7
          = true
        ∧ hasInvisibleId
            (removeInvisibleId
              (removeInvisibleId
                (addInvisibleId (addInvisibleId (entityNew 1 "player" "p" 0 0) 7) 7)
                7) 7) 7
            = false) :=
  ⟨by decide, hideId_requires_matching_unhides (entityNew 1 "player" "p" 0 0) 7 (by decide)⟩

/-- C2 (counterexample): when the target instance is already hidden before
the pair, `hide` then `unhide` does not restore the prior visibility value:
it was invisible before and is visible after. -/
theorem hide_unhide_not_roundtrip_when_already_hidden :
    visibleTo { entityNew 1 "player" "o" 0 0 with invisibles := ["t-1"] }
        (entityNew 2 "mob" "t-1" 0 0) = false
    ∧ visibleTo
        (removeInvisible
          (addInvisible { entityNew 1 "player" "o" 0 0 with invisibles := ["t-1"] }
            (entityNew 2 "mob" "t-1" 0 0))
          (entityNew 2 "mob" "t-1" 0 0))
        (entityNew 2 "mob" "t-1" 0 0) = true := by
  decide

/-- C2 (amended): provided the target instance is not already hidden,
`hide` followed by the matching `unhide` restores the prior value of
`visibleTo`. -/
theorem hide_unhide_roundtrip (o t : Entity) (h : hasInvisible o t = false) :
    visibleTo (removeInvisible (addInvisible o t) t) t = visibleTo o t := by
  have h' : t.inst ∉ o.invisibles := by simpa [hasInvisible] using h
  have hadd : addInvisible o t = { o with invisibles := t.inst :: o.invisibles } := by
    simp [addInvisible, h']
  rw [hadd]
  simp [visibleTo, hasInvisible, removeInvisible, List.mem_filter, h']

theorem hide_unhide_roundtrip_witness :
    hasInvisible (entityNew 1 "player" "o" 0 0) (entityNew 2 "mob" "t" 0 0) = false
    ∧ visibleTo
        (removeInvisible
          (addInvisible (entityNew 1 "player" "o" 0 0) (entityNew 2 "mob" "t" 0 0))
          (entityNew 2 "mob" "t" 0 0))
        (entityNew 2 "mob" "t" 0 0)
      = visibleTo (entityNew 1 "player" "o" 0 0) (entityNew 2 "mob" "t" 0 0) :=
  ⟨by decide,
    hide_unhide_roundtrip (entityNew 1 "player" "o" 0 0) (entityNew 2 "mob" "t" 0 0)
      (by decide)⟩

/-- C3: the snapshot of a mob with id 5, instance "m-42", position (10,12)
and specialState "boss", under tables mapping id 5 to "skeleton"/"Skeleton",
is exactly the record of the spec: the `id` field carries the instance, the
`nameColour` is the boss colour, and there is no `customScale` field. -/
theorem getState_mob_example (L : Lookups)
    (hs : L.mobString 5 = "skeleton") (hn : L.mobName 5 = "Skeleton") :
    getState L { entityNew 5 "mob" "m-42" 10 12 with specialState := some "boss" }
      = { type := "mob", id := "m-42", string := "skeleton", name := "Skeleton"
          x := 10, y := 12, nameColour := some "#660033", customScale := none } := by
  rw [← hs, ← hn]
  rfl

theorem getState_mob_example_witness :
    (Lookups.mk (fun _ => "skeleton") (fun _ => "Skeleton")
        (fun _ => "") (fun _ => "") (fun _ => "") (fun _ => "")).mobString 5 = "skeleton"
    ∧ (Lookups.mk (fun _ => "skeleton") (fun _ => "Skeleton")
        (fun _ => "") (fun _ => "") (fun _ => "") (fun _ => "")).mobName 5 = "Skeleton"
    ∧ getState
        (Lookups.mk (fun _ => "skeleton") (fun _ => "Skeleton")
          (fun _ => "") (fun _ => "") (fun _ => "") (fun _ => ""))
        { entityNew 5 "mob" "m-42" 10 12 with specialState := some "boss" }
      = { type := "mob", id := "m-42", string := "skeleton", name := "Skeleton"
          x := 10, y := 12, nameColour := some "#660033", customScale := none } :=
  ⟨rfl, rfl,
    getState_mob_example
      (Lookups.mk (fun _ => "skeleton") (fun _ => "Skeleton")
        (fun _ => "") (fun _ => "") (fun _ => "") (fun _ => "")) rfl rfl⟩

/-- C8 (counterexample): an entity whose `customScale` is set to 0 produces a
snapshot with no `customScale` field — the truthiness guard drops the set
value 0, contradicting presence for every set numeric value. -/
theorem customScale_zero_omitted :
    ({ entityNew 3 "item" "i-1" 0 0 with customScale := some 0 } : Entity).customScale
        = some 0
    ∧ (getState
        (Lookups.mk (fun _ => "s") (fun _ => "n") (fun _ => "s") (fun _ => "n")
          (fun _ => "s") (fun _ => "n"))
        { entityNew 3 "item" "i-1" 0 0 with customScale := some 0 }).customScale
        = none :=
  ⟨rfl, rfl⟩

/-- C8 (amended): provided `specialState` is absent or one of the six special
states, the snapshot has a `nameColour` iff `specialState` is set, and then
it equals the fixed colour mapping; the `customScale` field is present iff
`customScale` is set to a nonzero value, and is then passed through
unchanged. -/
theorem getState_optional_fields (L : Lookups) (e : Entity)
    (hss : e.specialState = none ∨
      e.specialState ∈ [some "boss", some "miniboss", some "achievementNpc",
        some "area", some "questNpc", some "questMob"]) :
    ((getState L e).nameColour.isSome ↔ e.specialState.isSome)
    ∧ (e.specialState.isSome → (getState L e).nameColour = getNameColour e)
    ∧ ((getState L e).customScale.isSome ↔ ∃ c, e.customScale = some c ∧ c ≠ 0)
    ∧ ((getState L e).customScale.isSome → (getState L e).customScale = e.customScale) := by
  have hnc : (getState L e).nameColour
      = if strTruthy e.specialState then getNameColour e else none := rfl
  have hcs : (getState L e).customScale
      = if numTruthy e.customScale then e.customScale else none := rfl
  refine ⟨?_, ?_, ?_, ?_⟩
  · rw [hnc]
    rcases hss with h | h
    · simp [h, strTruthy]
    · simp only [List.mem_cons, List.not_mem_nil, or_false] at h
      rcases h with h | h | h | h | h | h <;> simp [strTruthy, getNameColour, h]
  · intro hsome
    rw [hnc]
    rcases hss with h | h
    · rw [h] at hsome
      simp at hsome
    · simp only [List.mem_cons, List.not_mem_nil, or_false] at h
      rcases h with h | h | h | h | h | h <;> simp [strTruthy, h]
  · rw [hcs]
    cases hc : e.customScale with
    | none => simp [hc, numTruthy]
    | some c =>
      by_cases hc0 : c = 0 <;> simp [hc, hc0, numTruthy]
  · intro hsome
    rw [hcs] at hsome ⊢
    cases hc : e.customScale with
    | none => simp [hc, numTruthy] at hsome
    | some c =>
      by_cases hc0 : c = 0
      · rw [hc, hc0] at hsome
        simp [numTruthy] at hsome
      · simp [hc, hc0, numTruthy]

theorem getState_optional_fields_witness :
    (({ entityNew 5 "mob" "m-1" 0 0 with
          specialState := some "boss", customScale := some 2 } : Entity).specialState = none
      ∨ ({ entityNew 5 "mob" "m-1" 0 0 with
          specialState := some "boss", customScale := some 2 } : Entity).specialState
        ∈ [some "boss", some "miniboss", some "achievementNpc",
            some "area", some "questNpc", some "questMob"])
    ∧ (((getState
          (Lookups.mk (fun _ => "s") (fun _ => "n") (fun _ => "s") (fun _ => "n")
            (fun _ => "s") (fun _ => "n"))
          { entityNew 5 "mob" "m-1" 0 0 with
            specialState := some "boss", customScale := some 2 }).nameColour.isSome
        ↔ ({ entityNew 5 "mob" "m-1" 0 0 with
            specialState := some "boss", customScale := some 2 } : Entity).specialState.isSome)
      ∧ (({ entityNew 5 "mob" "m-1" 0 0 with
            specialState := some "boss", customScale := some 2 } : Entity).specialState.isSome →
          (getState
            (Lookups.mk (fun _ => "s") (fun _ => "n") (fun _ => "s") (fun _ => "n")
              (fun _ => "s") (fun _ => "n"))
            { entityNew 5 "mob" "m-1" 0 0 with
              specialState := some "boss", customScale := some 2 }).nameColour
            = getNameColour
                { entityNew 5 "mob" "m-1" 0 0 with
                  specialState := some "boss", customScale := some 2 })
      ∧ ((getState
            (Lookups.mk (fun _ => "s") (fun _ => "n") (fun _ => "s") (fun _ => "n")
              (fun _ => "s") (fun _ => "n"))
            { entityNew 5 "mob" "m-1" 0 0 with
              specialState := some "boss", customScale := some 2 }).customScale.isSome
          ↔ ∃ c, ({ entityNew 5 "mob" "m-1" 0 0 with
              specialState := some "boss", customScale := some 2 } : Entity).customScale
              = some c ∧ c ≠ 0)
      ∧ ((getState
            (Lookups.mk (fun _ => "s") (fun _ => "n") (fun _ => "s") (fun _ => "n")
              (fun _ => "s") (fun _ => "n"))
            { entityNew 5 "mob" "m-1" 0 0 with
              specialState := some "boss", customScale := some 2 }).customScale.isSome →
          (getState
            (Lookups.mk (fun _ => "s") (fun _ => "n") (fun _ => "s") (fun _ => "n")
              (fun _ => "s") (fun _ => "n"))
            { entityNew 5 "mob" "m-1" 0 0 with
              specialState := some "boss", customScale := some 2 }).customScale
            = ({ entityNew 5 "mob" "m-1" 0 0 with
                specialState := some "boss", customScale := some 2 } : Entity).customScale)) :=
  ⟨by decide,
    getState_optional_fields
      (Lookups.mk (fun _ => "s") (fun _ => "n") (fun _ => "s") (fun _ => "n")
        (fun _ => "s") (fun _ => "n"))
      { entityNew 5 "mob" "m-1" 0 0 with
        specialState := some "boss", customScale := some 2 }
      (by decide)⟩
